import Mathlib

/-
Verification of the LIF-refractory single-step engines of
src/norse/torch/module/lif_refrac.py.

Tensors are embedded as an explicit shape (a list of dimension sizes,
allowing arbitrary rank) together with a total data function on index
lists; values are exact rationals. The functional kernel
(norse.torch.functional.lif_refrac) is not part of the repository
snapshot: its definitions below are modelled from the specification, with
the call signatures fixed by their use in the module file.
-/

namespace Norse

/-- Rank-n tensor: an explicit shape plus a total data function on index
lists. Entries at indices outside the shape are irrelevant to the claims,
which only compare shapes and in-bounds entries. -/
structure Tensor where
  shape : List Nat
  data : List Nat → ℚ

/-- torch.zeros: the all-zero tensor of a given shape. -/
def Tensor.zeros (s : List Nat) : Tensor :=
  ⟨s, fun _ => 0⟩

/-- Elementwise addition; the shape is taken from the first operand
(operands share a shape at every use site in the modelled code). -/
def Tensor.add (a b : Tensor) : Tensor :=
  ⟨a.shape, fun ix => a.data ix + b.data ix⟩

/-- Batched product with a transposed weight matrix: for `x` of shape
(batch, n) and `w` of shape (m, n), the result has shape (batch, m) and
entry [b, j] equal to the dot product of row b of `x` with row j of `w`.
This is torch's `x @ w.t()` as used for spike-to-current injection. -/
def Tensor.mulT (x w : Tensor) : Tensor :=
  ⟨[x.shape.headD 0, w.shape.headD 0],
   fun ix =>
     match ix with
     | [b, j] => Finset.sum (Finset.range (w.shape.getD 1 0))
         (fun k => x.data [b, k] * w.data [j, k])
     | _ => 0⟩

/-- Modelled from the spec: the parameter record of
`norse.torch.functional.lif_refrac.LIFRefracParameters` is not under
src/; its fields are taken from the specification's data model (three
inverse time constants, leak, threshold, reset potentials and the
refractory reset magnitude), as scalars. -/
structure LIFRefracParameters where
  tau_syn_inv : ℚ
  tau_mem_inv : ℚ
  tau_refrac_inv : ℚ
  v_leak : ℚ
  v_th : ℚ
  v_reset : ℚ
  rho_reset : ℚ

/-- State of the plain LIF dynamics: output spikes, membrane voltage and
synaptic current. The field set is pinned by the keyword construction
`LIFState(z=..., v=..., i=...)` in `LIFRefracCell.initial_state`. -/
structure LIFState where
  z : Tensor
  v : Tensor
  i : Tensor

/-- Refractory LIF state for the recurrent cell: a LIF state plus the
refractory counter, as constructed in `LIFRefracCell.initial_state`. -/
structure LIFRefracState where
  lif : LIFState
  rho : Tensor

/-- Feed-forward LIF state: membrane voltage and synaptic current only
(no stored spikes), as constructed in
`LIFRefracFeedForwardCell.initial_state`. -/
structure LIFFeedForwardState where
  v : Tensor
  i : Tensor

/-- Refractory feed-forward state: a feed-forward LIF state plus the
refractory counter. -/
structure LIFRefracFeedForwardState where
  lif : LIFFeedForwardState
  rho : Tensor

/-- Modelled from the spec: synaptic-current update of the shared
dynamics kernel. The stored current decays by one Euler step and the
injected current for this step is added:
i_new = i + dt * (-tau_syn_inv * i) + input_current. -/
def synCurrent (i current : Tensor) (p : LIFRefracParameters) (dt : ℚ) : Tensor :=
  ⟨i.shape, fun ix => i.data ix + dt * (-p.tau_syn_inv * i.data ix) + current.data ix⟩

/-- Modelled from the spec: the refractory gate g = Heaviside(-rho), with
the convention that a neuron integrates exactly when rho <= 0. -/
def refracGate (rho : Tensor) : Tensor :=
  ⟨rho.shape, fun ix => if rho.data ix ≤ 0 then 1 else 0⟩

/-- Modelled from the spec: the gated Euler voltage update
v_new = v + dt * g * tau_mem_inv * (v_leak - v + i_new); refractory
neurons (g = 0) do not integrate. -/
def voltageEuler (v iNew rho : Tensor) (p : LIFRefracParameters) (dt : ℚ) : Tensor :=
  ⟨v.shape, fun ix =>
    v.data ix + dt * (refracGate rho).data ix * p.tau_mem_inv *
      (p.v_leak - v.data ix + iNew.data ix)⟩

/-- Modelled from the spec: refractory-counter decay
rho_decayed = rho + dt * (-tau_refrac_inv * Heaviside(rho)); the counter
decays only while strictly positive and is held once it reaches zero. -/
def rhoDecay (rho : Tensor) (p : LIFRefracParameters) (dt : ℚ) : Tensor :=
  ⟨rho.shape, fun ix =>
    rho.data ix + dt * (-p.tau_refrac_inv * (if 0 < rho.data ix then 1 else 0))⟩

/-- Modelled from the spec: the jump condition z = Heaviside(v_new - v_th)
with a strict threshold comparison (a neuron at exactly v_th does not
fire). -/
def spikes (vNew : Tensor) (p : LIFRefracParameters) : Tensor :=
  ⟨vNew.shape, fun ix => if p.v_th < vNew.data ix then 1 else 0⟩

/-- Modelled from the spec: voltage reset on spike,
v_out = (1 - z) * v_new + z * v_reset. -/
def voltageReset (vNew z : Tensor) (p : LIFRefracParameters) : Tensor :=
  ⟨vNew.shape, fun ix => (1 - z.data ix) * vNew.data ix + z.data ix * p.v_reset⟩

/-- Modelled from the spec: refractory re-entry. The gate
z_r = Heaviside(-rho_decayed) is not used; every spiking neuron adds
rho_reset to its decayed counter: rho_out = rho_decayed + z * rho_reset. -/
def rhoReentry (rhoDecayed z : Tensor) (p : LIFRefracParameters) : Tensor :=
  ⟨rhoDecayed.shape, fun ix => rhoDecayed.data ix + z.data ix * p.rho_reset⟩

/-- The four tensors produced by one step of the shared dynamics kernel:
output spikes, reset voltage, updated current, updated refractory
counter. -/
structure KernelResult where
  z : Tensor
  v : Tensor
  i : Tensor
  rho : Tensor

/-- Modelled from the spec: the SharedDynamicsKernel of §4.1, one explicit
Euler step of the refractory LIF dynamics mapping (state fields, injected
current, parameters, dt) to (spikes, new state fields). The functional
module that implements it is not under src/. -/
def sharedDynamicsStep (v i rho current : Tensor) (p : LIFRefracParameters)
    (dt : ℚ) : KernelResult :=
  let iNew := synCurrent i current p dt
  let vNew := voltageEuler v iNew rho p dt
  let rhoDecayed := rhoDecay rho p dt
  let z := spikes vNew p
  ⟨z, voltageReset vNew z p, iNew, rhoReentry rhoDecayed z p⟩

/-- Modelled from the spec: `lif_refrac_step` of the functional module is
not under src/. Its call signature is fixed by `LIFRefracCell.forward`:
it receives only the input tensor and the state besides weights,
parameters and dt, so the recurrent spikes are read from the state's z
field. The injected current is the weighted sum of input and recurrent
spikes; the rest delegates to the shared dynamics kernel, with the output
spikes also stored back into the state's z field. -/
def lif_refrac_step (input_tensor : Tensor) (s : LIFRefracState)
    (input_weights recurrent_weights : Tensor) (p : LIFRefracParameters)
    (dt : ℚ) : Tensor × LIFRefracState :=
  let current := Tensor.add (Tensor.mulT input_tensor input_weights)
    (Tensor.mulT s.lif.z recurrent_weights)
  let r := sharedDynamicsStep s.lif.v s.lif.i s.rho current p dt
  (r.z, ⟨⟨r.z, r.v, r.i⟩, r.rho⟩)

/-- Modelled from the spec: `lif_refrac_feed_forward_step` of the
functional module is not under src/. The input tensor is used directly as
the injected current, and the state carries no spike field. -/
def lif_refrac_feed_forward_step (input_tensor : Tensor)
    (s : LIFRefracFeedForwardState) (p : LIFRefracParameters) (dt : ℚ) :
    Tensor × LIFRefracFeedForwardState :=
  let r := sharedDynamicsStep s.lif.v s.lif.i s.rho input_tensor p dt
  (r.z, ⟨⟨r.v, r.i⟩, r.rho⟩)

/-- The recurrent cell: the fields assigned in `LIFRefracCell.__init__`
(both weight matrices, the hidden size, the parameter record and dt). -/
structure LIFRefracCell where
  input_weights : Tensor
  recurrent_weights : Tensor
  hidden_size : Nat
  parameters : LIFRefracParameters
  dt : ℚ

/-- numpy's np.sqrt on an integer size, as a rational: exact for perfect
squares (every concrete instance in this development uses one), the floor
of the square root otherwise. -/
def npSqrt (n : Nat) : ℚ :=
  (Nat.sqrt n : ℚ)

/-- `LIFRefracCell.__init__`: stores the sizes, parameters and dt, and
allocates both weight matrices itself as `torch.randn(...) / np.sqrt(fan_in)`.
The two standard-normal draws of torch.randn are modelled as explicit
samples g1, g2 supplied by the random source; everything after the draw is
deterministic. No argument is validated. -/
def LIFRefracCell.init (input_size hidden_size : Nat) (p : LIFRefracParameters)
    (dt : ℚ) (g1 g2 : List Nat → ℚ) : LIFRefracCell :=
  ⟨⟨[hidden_size, input_size], fun ix => g1 ix / npSqrt input_size⟩,
   ⟨[hidden_size, hidden_size], fun ix => g2 ix / npSqrt hidden_size⟩,
   hidden_size, p, dt⟩

/-- `LIFRefracCell.initial_state`: all four state fields are zero tensors
of shape (batch_size, hidden_size). The device and dtype arguments of the
source have no counterpart in this rational-valued embedding. -/
def LIFRefracCell.initial_state (c : LIFRefracCell) (batch_size : Nat) :
    LIFRefracState :=
  ⟨⟨Tensor.zeros [batch_size, c.hidden_size],
    Tensor.zeros [batch_size, c.hidden_size],
    Tensor.zeros [batch_size, c.hidden_size]⟩,
   Tensor.zeros [batch_size, c.hidden_size]⟩

/-- `LIFRefracCell.forward`: delegates to `lif_refrac_step` with the
stored weights, parameters and dt. -/
def LIFRefracCell.forward (c : LIFRefracCell) (input_tensor : Tensor)
    (s : LIFRefracState) : Tensor × LIFRefracState :=
  lif_refrac_step input_tensor s c.input_weights c.recurrent_weights
    c.parameters c.dt

/-- The feed-forward cell: the fields assigned in
`LIFRefracFeedForwardCell.__init__` (the population shape, of arbitrary
rank, the parameter record and dt). -/
structure LIFRefracFeedForwardCell where
  shape : List Nat
  parameters : LIFRefracParameters
  dt : ℚ

/-- `LIFRefracFeedForwardCell.__init__`: stores the shape, parameters and
dt unchanged; nothing is validated and nothing else is allocated. -/
def LIFRefracFeedForwardCell.init (shape : List Nat)
    (p : LIFRefracParameters) (dt : ℚ) : LIFRefracFeedForwardCell :=
  ⟨shape, p, dt⟩

/-- `LIFRefracFeedForwardCell.initial_state`: all three state fields are
zero tensors of shape (batch_size, *shape). -/
def LIFRefracFeedForwardCell.initial_state (c : LIFRefracFeedForwardCell)
    (batch_size : Nat) : LIFRefracFeedForwardState :=
  ⟨⟨Tensor.zeros (batch_size :: c.shape), Tensor.zeros (batch_size :: c.shape)⟩,
   Tensor.zeros (batch_size :: c.shape)⟩

/-- `LIFRefracFeedForwardCell.forward`: delegates to
`lif_refrac_feed_forward_step` with the stored parameters and dt. -/
def LIFRefracFeedForwardCell.forward (c : LIFRefracFeedForwardCell)
    (input_tensor : Tensor) (s : LIFRefracFeedForwardState) :
    Tensor × LIFRefracFeedForwardState :=
  lif_refrac_feed_forward_step input_tensor s c.parameters c.dt

/-- A call of the recurrent cell's forward method as seen by the caller:
the method body assigns to neither `self` nor the state argument, so the
call returns the cell and the input state unchanged next to its result.
Embedded as explicit state passing. -/
def LIFRefracCell.forwardCall (c : LIFRefracCell) (input_tensor : Tensor)
    (s : LIFRefracState) :
    LIFRefracCell × LIFRefracState × (Tensor × LIFRefracState) :=
  (c, s, c.forward input_tensor s)

/-- A call of the feed-forward cell's forward method as seen by the
caller: no assignment to `self` or the state argument occurs, so both are
returned unchanged next to the result. -/
def LIFRefracFeedForwardCell.forwardCall (c : LIFRefracFeedForwardCell)
    (input_tensor : Tensor) (s : LIFRefracFeedForwardState) :
    LIFRefracFeedForwardCell × LIFRefracFeedForwardState ×
      (Tensor × LIFRefracFeedForwardState) :=
  (c, s, c.forward input_tensor s)

/-- The parameter record of the spec's concrete scenario in §8: unit time
constants, v_leak = 0, v_th = 1, v_reset = 0, rho_reset = 2. -/
def scenarioParams : LIFRefracParameters :=
  ⟨1, 1, 1, 0, 1, 0, 2⟩

/-- A single-neuron zero tensor, the scenario's initial v, i and rho. -/
def zeroT1 : Tensor :=
  Tensor.zeros [1]

/-- The scenario's injected current of 5 on a single neuron. -/
def cur5 : Tensor :=
  ⟨[1], fun _ => 5⟩

/-- The kernel result of the spec's §8 scenario: one neuron starting at
v = i = rho = 0 driven by current 5 with dt = 1. -/
def scenarioStep : KernelResult :=
  sharedDynamicsStep zeroT1 zeroT1 zeroT1 cur5 scenarioParams 1

/-- C1: in a single step the refractory re-entry gate is not used; for
every neuron the returned refractory counter equals the decayed counter
plus z * rho_reset, so a spiking neuron (z = 1) exceeds its decayed value
by exactly rho_reset and a silent neuron (z = 0) keeps its decayed
value. -/
theorem c1_refrac_reentry_adds_z_rho_reset (v i rho current : Tensor)
    (p : LIFRefracParameters) (dt : ℚ) (ix : List Nat) :
    (sharedDynamicsStep v i rho current p dt).rho.data ix =
        (rhoDecay rho p dt).data ix +
          (sharedDynamicsStep v i rho current p dt).z.data ix * p.rho_reset
    ∧ ((sharedDynamicsStep v i rho current p dt).z.data ix = 1 →
        (sharedDynamicsStep v i rho current p dt).rho.data ix =
          (rhoDecay rho p dt).data ix + p.rho_reset)
    ∧ ((sharedDynamicsStep v i rho current p dt).z.data ix = 0 →
        (sharedDynamicsStep v i rho current p dt).rho.data ix =
          (rhoDecay rho p dt).data ix) := by
  refine ⟨rfl, fun h => ?_, fun h => ?_⟩
  · show (rhoDecay rho p dt).data ix +
      (sharedDynamicsStep v i rho current p dt).z.data ix * p.rho_reset = _
    rw [h]; ring
  · show (rhoDecay rho p dt).data ix +
      (sharedDynamicsStep v i rho current p dt).z.data ix * p.rho_reset = _
    rw [h]; ring

/-- C1 witness: in the spec's §8 scenario the neuron spikes and its
refractory counter ends exactly rho_reset above the decayed value,
by the C1 theorem. -/
theorem c1_refrac_reentry_adds_z_rho_reset_witness :
    scenarioStep.z.data [0] = 1 ∧
    scenarioStep.rho.data [0] =
      (rhoDecay zeroT1 scenarioParams 1).data [0] + scenarioParams.rho_reset := by
  have hz : scenarioStep.z.data [0] = 1 := by
    simp [scenarioStep, sharedDynamicsStep, spikes, voltageEuler, synCurrent,
      refracGate, Tensor.zeros, zeroT1, cur5, scenarioParams]
  exact ⟨hz,
    (c1_refrac_reentry_adds_z_rho_reset zeroT1 zeroT1 zeroT1 cur5
      scenarioParams 1 [0]).2.1 hz⟩

/-- C6: in a single step the returned voltage is
(1 - z) * v_new + z * v_reset; a spiking neuron's voltage is exactly
v_reset and a silent neuron keeps its integrated value v_new. -/
theorem c6_voltage_reset_exact (v i rho current : Tensor)
    (p : LIFRefracParameters) (dt : ℚ) (ix : List Nat) :
    (sharedDynamicsStep v i rho current p dt).v.data ix =
        (1 - (sharedDynamicsStep v i rho current p dt).z.data ix) *
            (voltageEuler v (synCurrent i current p dt) rho p dt).data ix +
          (sharedDynamicsStep v i rho current p dt).z.data ix * p.v_reset
    ∧ ((sharedDynamicsStep v i rho current p dt).z.data ix = 1 →
        (sharedDynamicsStep v i rho current p dt).v.data ix = p.v_reset)
    ∧ ((sharedDynamicsStep v i rho current p dt).z.data ix = 0 →
        (sharedDynamicsStep v i rho current p dt).v.data ix =
          (voltageEuler v (synCurrent i current p dt) rho p dt).data ix) := by
  refine ⟨rfl, fun h => ?_, fun h => ?_⟩
  · show (1 - (sharedDynamicsStep v i rho current p dt).z.data ix) *
        (voltageEuler v (synCurrent i current p dt) rho p dt).data ix +
        (sharedDynamicsStep v i rho current p dt).z.data ix * p.v_reset = _
    rw [h]; ring
  · show (1 - (sharedDynamicsStep v i rho current p dt).z.data ix) *
        (voltageEuler v (synCurrent i current p dt) rho p dt).data ix +
        (sharedDynamicsStep v i rho current p dt).z.data ix * p.v_reset = _
    rw [h]; ring

/-- C6 witness: in the spec's §8 scenario the neuron spikes and its
returned voltage is exactly v_reset, by the C6 theorem. -/
theorem c6_voltage_reset_exact_witness :
    scenarioStep.z.data [0] = 1 ∧
    scenarioStep.v.data [0] = scenarioParams.v_reset := by
  have hz : scenarioStep.z.data [0] = 1 := by
    simp [scenarioStep, sharedDynamicsStep, spikes, voltageEuler, synCurrent,
      refracGate, Tensor.zeros, zeroT1, cur5, scenarioParams]
  exact ⟨hz,
    (c6_voltage_reset_exact zeroT1 zeroT1 zeroT1 cur5 scenarioParams 1 [0]).2.1 hz⟩

/-- A 1x1 all-ones weight matrix for the recurrent-feedback experiment. -/
def oneW : Tensor :=
  ⟨[1, 1], fun _ => 1⟩

/-- A one-neuron recurrent cell with unit weights, scenario parameters
and dt = 1. -/
def c2cell : LIFRefracCell :=
  ⟨oneW, oneW, 1, scenarioParams, 1⟩

/-- A silent input spike tensor for the recurrent-feedback experiment. -/
def c2input : Tensor :=
  ⟨[1, 1], fun _ => 0⟩

/-- A state whose stored spike field z is zero, with v = i = rho = 0. -/
def c2stateA : LIFRefracState :=
  ⟨⟨Tensor.zeros [1, 1], Tensor.zeros [1, 1], Tensor.zeros [1, 1]⟩,
   Tensor.zeros [1, 1]⟩

/-- A state identical to c2stateA except that its stored spike field z
is one. -/
def c2stateB : LIFRefracState :=
  ⟨⟨⟨[1, 1], fun _ => 1⟩, Tensor.zeros [1, 1], Tensor.zeros [1, 1]⟩,
   Tensor.zeros [1, 1]⟩

/-- C2 counterexample: the claim has the step receive the previous
spikes as a separate argument next to a state of fields v, i, rho only,
so for a fixed call the output would be a function of the input tensor
and those three fields. The code's step instead reads the recurrent
spikes from the state's z field: two states agreeing on v, i and rho but
differing in z produce different outputs for the same input. -/
theorem c2_counterexample :
    c2stateA.lif.v = c2stateB.lif.v ∧ c2stateA.lif.i = c2stateB.lif.i ∧
    c2stateA.rho = c2stateB.rho ∧
    (c2cell.forward c2input c2stateA).2.lif.i.data [0, 0] ≠
      (c2cell.forward c2input c2stateB).2.lif.i.data [0, 0] := by
  refine ⟨rfl, rfl, rfl, ?_⟩
  simp [LIFRefracCell.forward, lif_refrac_step, sharedDynamicsStep, synCurrent,
    Tensor.add, Tensor.mulT, Tensor.zeros, Finset.sum_range_one, c2cell, oneW,
    c2input, c2stateA, c2stateB, scenarioParams]

/-- C2 (amended): the recurrent engine's step takes only the input
spikes and the state; the previous step's output spikes are read from
the state's z field, and the injected current is the input spikes times
the transposed input weights plus the state's z times the transposed
recurrent weights, after which the step delegates to the shared dynamics
kernel. -/
theorem c2_recurrent_current_from_state_z (c : LIFRefracCell) (x : Tensor)
    (s : LIFRefracState) :
    c.forward x s =
      ((sharedDynamicsStep s.lif.v s.lif.i s.rho
          (Tensor.add (Tensor.mulT x c.input_weights)
            (Tensor.mulT s.lif.z c.recurrent_weights)) c.parameters c.dt).z,
       ⟨⟨(sharedDynamicsStep s.lif.v s.lif.i s.rho
            (Tensor.add (Tensor.mulT x c.input_weights)
              (Tensor.mulT s.lif.z c.recurrent_weights)) c.parameters c.dt).z,
          (sharedDynamicsStep s.lif.v s.lif.i s.rho
            (Tensor.add (Tensor.mulT x c.input_weights)
              (Tensor.mulT s.lif.z c.recurrent_weights)) c.parameters c.dt).v,
          (sharedDynamicsStep s.lif.v s.lif.i s.rho
            (Tensor.add (Tensor.mulT x c.input_weights)
              (Tensor.mulT s.lif.z c.recurrent_weights)) c.parameters c.dt).i⟩,
        (sharedDynamicsStep s.lif.v s.lif.i s.rho
          (Tensor.add (Tensor.mulT x c.input_weights)
            (Tensor.mulT s.lif.z c.recurrent_weights)) c.parameters c.dt).rho⟩) :=
  rfl

/-- C9: the recurrent state carries the spikes explicitly: initial_state
zero-fills a z field of shape (batch, hidden) next to v, i and rho; the
step's updated current reads the recurrent feedback from the state's z
field, and the step's output spikes are stored back into the new state's
z field. -/
theorem c9_state_z_field_carries_spikes (c : LIFRefracCell) (b : Nat)
    (x : Tensor) (s : LIFRefracState) :
    (c.initial_state b).lif.z = Tensor.zeros [b, c.hidden_size]
    ∧ (c.forward x s).2.lif.i =
        synCurrent s.lif.i
          (Tensor.add (Tensor.mulT x c.input_weights)
            (Tensor.mulT s.lif.z c.recurrent_weights)) c.parameters c.dt
    ∧ (c.forward x s).2.lif.z = (c.forward x s).1 :=
  ⟨rfl, rfl, rfl⟩

/-- Parameters with every decay rate negative, for the validation
experiment. -/
def badParams : LIFRefracParameters :=
  ⟨-1, -1, -1, 0, 1, 0, 2⟩

/-- A zero random draw for constructing cells in experiments. -/
def gzero : List Nat → ℚ :=
  fun _ => 0

/-- C3 counterexample: constructing either cell with dt = -1 and all
decay rates negative succeeds (both constructors are total, with no
validation path in the source) and stores the invalid values unchanged,
contradicting the claim that such a construction fails with
InvalidParameter. -/
theorem c3_counterexample :
    (LIFRefracCell.init 2 3 badParams (-1) gzero gzero).dt = -1
    ∧ (LIFRefracCell.init 2 3 badParams (-1) gzero gzero).parameters = badParams
    ∧ (LIFRefracFeedForwardCell.init [2] badParams (-1)).dt = -1
    ∧ (LIFRefracFeedForwardCell.init [2] badParams (-1)).parameters = badParams :=
  ⟨rfl, rfl, rfl, rfl⟩

/-- C3 (amended): neither constructor validates its arguments: a
non-positive dt and negative decay rates are accepted and stored
unchanged, to be used as-is by the step; no InvalidParameter failure
exists anywhere in the code. -/
theorem c3_no_parameter_validation (isz hsz : Nat) (sh : List Nat)
    (p : LIFRefracParameters) (dt : ℚ) (g1 g2 : List Nat → ℚ)
    (h : dt ≤ 0 ∨ p.tau_syn_inv < 0 ∨ p.tau_mem_inv < 0 ∨ p.tau_refrac_inv < 0) :
    (LIFRefracCell.init isz hsz p dt g1 g2).dt = dt
    ∧ (LIFRefracCell.init isz hsz p dt g1 g2).parameters = p
    ∧ (LIFRefracFeedForwardCell.init sh p dt).dt = dt
    ∧ (LIFRefracFeedForwardCell.init sh p dt).parameters = p :=
  ⟨rfl, rfl, rfl, rfl⟩

/-- C3 witness: at dt = -1 and all-negative decay rates, construction
still stores dt unchanged, by the amended C3 theorem. -/
theorem c3_no_parameter_validation_witness :
    (-1 : ℚ) ≤ 0 ∧ (LIFRefracCell.init 2 3 badParams (-1) gzero gzero).dt = -1 :=
  ⟨by decide,
   (c3_no_parameter_validation 2 3 [2] badParams (-1) gzero gzero
     (Or.inl (by decide))).1⟩

/-- A constant random draw of 4 for the allocation experiment. -/
def c4draw1 : List Nat → ℚ :=
  fun _ => 4

/-- A constant random draw of 6 for the allocation experiment. -/
def c4draw2 : List Nat → ℚ :=
  fun _ => 6

/-- C4 counterexample: the recurrent constructor receives only the two
sizes, not weight tensors, and allocates and initializes the weights
itself: with input_size = hidden_size = 4 and a raw normal draw of 4 in
every entry, the stored input weight entry is 2 = 4 / sqrt(4), not the
raw draw — the engine itself applies the 1/sqrt(fan-in) scaled-normal
initialization the claim says it does not prescribe. -/
theorem c4_counterexample :
    (LIFRefracCell.init 4 4 scenarioParams 1 c4draw1 c4draw2).input_weights.shape
      = [4, 4]
    ∧ (LIFRefracCell.init 4 4 scenarioParams 1 c4draw1 c4draw2).input_weights.data
        [0, 0] = 2
    ∧ (LIFRefracCell.init 4 4 scenarioParams 1 c4draw1 c4draw2).input_weights.data
        [0, 0] ≠ c4draw1 [0, 0]
    ∧ (LIFRefracCell.init 4 4 scenarioParams 1 c4draw1 c4draw2).recurrent_weights.data
        [0, 0] = 3 := by
  refine ⟨rfl, ?_, ?_, ?_⟩ <;>
    norm_num [LIFRefracCell.init, npSqrt, c4draw1, c4draw2]

/-- C4 (amended): the recurrent engine's constructor allocates the
weight matrices itself from the declared sizes — input weights of shape
(hidden, input) and recurrent weights of shape (hidden, hidden) — and
initializes every entry to a standard-normal draw divided by the square
root of the fan-in; the collaborator supplies only the sizes, not weight
tensors. -/
theorem c4_engine_allocates_weights (isz hsz : Nat) (p : LIFRefracParameters)
    (dt : ℚ) (g1 g2 : List Nat → ℚ) :
    (LIFRefracCell.init isz hsz p dt g1 g2).input_weights.shape = [hsz, isz]
    ∧ (LIFRefracCell.init isz hsz p dt g1 g2).recurrent_weights.shape = [hsz, hsz]
    ∧ (∀ ix, (LIFRefracCell.init isz hsz p dt g1 g2).input_weights.data ix =
        g1 ix / npSqrt isz)
    ∧ (∀ ix, (LIFRefracCell.init isz hsz p dt g1 g2).recurrent_weights.data ix =
        g2 ix / npSqrt hsz) :=
  ⟨rfl, rfl, fun _ => rfl, fun _ => rfl⟩

/-- C5: the recurrent initial state is all-zero of shape
(batch, hidden_size) in every field, and the feed-forward initial state
is all-zero of shape (batch, *shape) in every field for the population
shape fixed at construction, of arbitrary rank. -/
theorem c5_initial_state_all_zero (c : LIFRefracCell)
    (fc : LIFRefracFeedForwardCell) (b bf : Nat) :
    (c.initial_state b).lif.z = Tensor.zeros [b, c.hidden_size]
    ∧ (c.initial_state b).lif.v = Tensor.zeros [b, c.hidden_size]
    ∧ (c.initial_state b).lif.i = Tensor.zeros [b, c.hidden_size]
    ∧ (c.initial_state b).rho = Tensor.zeros [b, c.hidden_size]
    ∧ (fc.initial_state bf).lif.v = Tensor.zeros (bf :: fc.shape)
    ∧ (fc.initial_state bf).lif.i = Tensor.zeros (bf :: fc.shape)
    ∧ (fc.initial_state bf).rho = Tensor.zeros (bf :: fc.shape) :=
  ⟨rfl, rfl, rfl, rfl, rfl, rfl, rfl⟩

/-- C7: the output spike tensor and every field of the returned state
have the same shape as the (uniformly shaped) fields of the input state,
for both engines. -/
theorem c7_shape_invariance (c : LIFRefracCell) (x : Tensor)
    (s : LIFRefracState) (sh : List Nat) (hz : s.lif.z.shape = sh)
    (hv : s.lif.v.shape = sh) (hi : s.lif.i.shape = sh) (hr : s.rho.shape = sh)
    (fc : LIFRefracFeedForwardCell) (xf : Tensor)
    (sf : LIFRefracFeedForwardState) (shf : List Nat)
    (hvf : sf.lif.v.shape = shf) (hif : sf.lif.i.shape = shf)
    (hrf : sf.rho.shape = shf) :
    ((c.forward x s).1.shape = sh
      ∧ (c.forward x s).2.lif.z.shape = sh
      ∧ (c.forward x s).2.lif.v.shape = sh
      ∧ (c.forward x s).2.lif.i.shape = sh
      ∧ (c.forward x s).2.rho.shape = sh)
    ∧ ((fc.forward xf sf).1.shape = shf
      ∧ (fc.forward xf sf).2.lif.v.shape = shf
      ∧ (fc.forward xf sf).2.lif.i.shape = shf
      ∧ (fc.forward xf sf).2.rho.shape = shf) :=
  ⟨⟨hv, hv, hv, hi, hr⟩, hvf, hvf, hif, hrf⟩

/-- A one-neuron recurrent cell for the shape-invariance witness. -/
def c7cell : LIFRefracCell :=
  ⟨⟨[1, 1], fun _ => 1⟩, ⟨[1, 1], fun _ => 1⟩, 1, scenarioParams, 1⟩

/-- A one-neuron input tensor for the shape-invariance witness. -/
def c7x : Tensor :=
  ⟨[1, 1], fun _ => 0⟩

/-- A feed-forward cell of population shape [2] for the shape-invariance
witness. -/
def c7fc : LIFRefracFeedForwardCell :=
  ⟨[2], scenarioParams, 1⟩

/-- An input tensor of shape [1, 2] for the shape-invariance witness. -/
def c7xf : Tensor :=
  ⟨[1, 2], fun _ => 0⟩

/-- C7 witness: on concrete one-batch states of shapes [1, 1] and
[1, 2], all output shapes equal the state shapes, by the C7 theorem. -/
theorem c7_shape_invariance_witness :
    ((c7cell.forward c7x (c7cell.initial_state 1)).1.shape = [1, 1]
      ∧ (c7cell.forward c7x (c7cell.initial_state 1)).2.lif.z.shape = [1, 1]
      ∧ (c7cell.forward c7x (c7cell.initial_state 1)).2.lif.v.shape = [1, 1]
      ∧ (c7cell.forward c7x (c7cell.initial_state 1)).2.lif.i.shape = [1, 1]
      ∧ (c7cell.forward c7x (c7cell.initial_state 1)).2.rho.shape = [1, 1])
    ∧ ((c7fc.forward c7xf (c7fc.initial_state 1)).1.shape = [1, 2]
      ∧ (c7fc.forward c7xf (c7fc.initial_state 1)).2.lif.v.shape = [1, 2]
      ∧ (c7fc.forward c7xf (c7fc.initial_state 1)).2.lif.i.shape = [1, 2]
      ∧ (c7fc.forward c7xf (c7fc.initial_state 1)).2.rho.shape = [1, 2]) :=
  c7_shape_invariance c7cell c7x (c7cell.initial_state 1) [1, 1] rfl rfl rfl rfl
    c7fc c7xf (c7fc.initial_state 1) [1, 2] rfl rfl rfl

/-- C8: the step is deterministic and uses no hidden randomness: its
output is a function of the stored weights, parameters, dt and the
explicit inputs alone, for both engines — two cells agreeing on those
produce identical outputs on identical inputs. -/
theorem c8_step_deterministic (a b : LIFRefracCell)
    (fa fb : LIFRefracFeedForwardCell) (x xf : Tensor) (s : LIFRefracState)
    (sf : LIFRefracFeedForwardState)
    (h1 : a.input_weights = b.input_weights)
    (h2 : a.recurrent_weights = b.recurrent_weights)
    (h3 : a.parameters = b.parameters) (h4 : a.dt = b.dt)
    (h5 : fa.parameters = fb.parameters) (h6 : fa.dt = fb.dt) :
    a.forward x s = b.forward x s ∧ fa.forward xf sf = fb.forward xf sf := by
  constructor
  · show lif_refrac_step x s a.input_weights a.recurrent_weights
      a.parameters a.dt = _
    rw [h1, h2, h3, h4]; rfl
  · show lif_refrac_feed_forward_step xf sf fa.parameters fa.dt = _
    rw [h5, h6]; rfl

/-- A recurrent cell with hidden_size field 1, for the determinism
witness. -/
def c8a : LIFRefracCell :=
  ⟨⟨[1, 1], fun _ => 1⟩, ⟨[1, 1], fun _ => 1⟩, 1, scenarioParams, 1⟩

/-- A recurrent cell identical to c8a except for its hidden_size field. -/
def c8b : LIFRefracCell :=
  ⟨⟨[1, 1], fun _ => 1⟩, ⟨[1, 1], fun _ => 1⟩, 99, scenarioParams, 1⟩

/-- A feed-forward cell of shape [1], for the determinism witness. -/
def c8fa : LIFRefracFeedForwardCell :=
  ⟨[1], scenarioParams, 1⟩

/-- A feed-forward cell identical to c8fa except for its shape field. -/
def c8fb : LIFRefracFeedForwardCell :=
  ⟨[7, 7], scenarioParams, 1⟩

/-- C8 witness: two concrete cells agreeing on weights, parameters and
dt produce identical outputs on a concrete input and state, by the C8
theorem. -/
theorem c8_step_deterministic_witness :
    c8a.forward c7x (c8a.initial_state 1) = c8b.forward c7x (c8a.initial_state 1)
    ∧ c8fa.forward zeroT1 ⟨⟨zeroT1, zeroT1⟩, zeroT1⟩ =
        c8fb.forward zeroT1 ⟨⟨zeroT1, zeroT1⟩, zeroT1⟩ :=
  c8_step_deterministic c8a c8b c8fa c8fb c7x zeroT1 (c8a.initial_state 1)
    ⟨⟨zeroT1, zeroT1⟩, zeroT1⟩ rfl rfl rfl rfl rfl rfl

/-- C10: a forward call leaves the engine configuration — weights,
parameters, dt, sizes — and the input state unchanged and returns a
fresh result, for both engines. -/
theorem c10_forward_frame (c : LIFRefracCell) (x : Tensor)
    (s : LIFRefracState) (fc : LIFRefracFeedForwardCell) (xf : Tensor)
    (sf : LIFRefracFeedForwardState) :
    (c.forwardCall x s).1 = c ∧ (c.forwardCall x s).2.1 = s
    ∧ (c.forwardCall x s).2.2 = c.forward x s
    ∧ (fc.forwardCall xf sf).1 = fc ∧ (fc.forwardCall xf sf).2.1 = sf
    ∧ (fc.forwardCall xf sf).2.2 = fc.forward xf sf :=
  ⟨rfl, rfl, rfl, rfl, rfl, rfl⟩

end Norse
